import Mathlib

/-!
Shallow embedding of the `takeoff` train-ticket booking core
(progressive booking state model) and proofs about it.

Modelling conventions:
* Instants (`chrono::DateTime<Utc>`) are modelled as `Int` values counting
  seconds; `chrono::Duration::hours h` is `3600 * h` seconds.  Only whole-hour
  arithmetic occurs in the source, so no precision is lost.
* `Utc::now()` is passed explicitly as a `now : Int` parameter; the source
  reads the ambient clock at evaluation time.
* UUID generation (`Uuid::new_v4`) is modelled by an explicit generator
  `idGen : Nat → TripId` giving the identifier of the i-th generated
  candidate; the claims under study do not depend on its randomness.
* The session store (axum_session) is modelled as the per-session value
  `Option TicketMachine`: `none` when no draft exists for the session.
  Each operation maps the stored value to (new stored value, response).
* Rust `Result`/`Option` become `Except`/`Option`; the `Display`/`Debug`
  formatting machinery becomes plain `String`-producing functions that
  reproduce the derived formatting.
-/

namespace Takeoff

/-- Errors of `src/error.rs`: `Io` (wrapped I/O error, opaque here) and
`BadRequest(&'static str)`. -/
inductive Error where
  | ioError : Error
  | badRequest (msg : String) : Error
deriving DecidableEq, Repr

/-- `src/types/location.rs`: `struct Location(String)`. -/
structure Location where
  val : String
deriving DecidableEq, Repr

/-- `ParseLocationError(String)` from `src/types/location.rs`. -/
structure ParseLocationError where
  val : String
deriving DecidableEq, Repr

/-- `Location::is_valid_location`: membership in the fixed allow-list. -/
def Location.is_valid_location (location : String) : Bool :=
  ["Amsterdam Centraal", "Paris Nord", "Berlin Hbf", "London Waterloo"].contains location

/-- `TryFrom<String> for Location`: reject anything not in the allow-list. -/
def Location.tryFrom (s : String) : Except ParseLocationError Location :=
  if Location.is_valid_location s then Except.ok ⟨s⟩ else Except.error ⟨s⟩

/-- Derived `serde::Serialize` for the newtype `Location(String)`: the wire
form is the inner string. -/
def Location.serialize (l : Location) : String := l.val

/-- `#[serde(try_from = "String")]` on `Location`: deserialization runs
`TryFrom<String>`. -/
def Location.deserialize (s : String) : Except ParseLocationError Location :=
  Location.tryFrom s

/-- `TimeError` from `src/types/departure_or_arrival.rs`. -/
inductive TimeError where
  | timeInPast : TimeError
deriving DecidableEq, Repr

/-- `FutureTimestamp(DateTime<Utc>)`, instant modelled as seconds. -/
structure FutureTimestamp where
  val : Int
deriving DecidableEq, Repr

/-- `TryFrom<DateTime<Utc>> for FutureTimestamp`:
`if Utc::now() > dt { return Err(TimeError::TimeInPast); } Ok(Self(dt))`.
`now` is the evaluation-time clock reading. -/
def FutureTimestamp.tryFrom (now dt : Int) : Except TimeError FutureTimestamp :=
  if now > dt then Except.error TimeError.timeInPast else Except.ok ⟨dt⟩

/-- `DepartureOrArrival` from `src/types/departure_or_arrival.rs`. -/
inductive DepartureOrArrival where
  | departure (t : FutureTimestamp)
  | arrival (t : FutureTimestamp)
deriving DecidableEq, Repr

/-- `src/types/trip.rs`: `struct TripId(Uuid)`, identifier kept opaque. -/
structure TripId where
  val : Nat
deriving DecidableEq, Repr

/-- `src/types/class.rs`: `enum Class { First, Second }`. -/
inductive Class where
  | first : Class
  | second : Class
deriving DecidableEq, Repr

/-- `#[serde(rename_all = "lowercase")]` derived `Serialize` for `Class`. -/
def Class.serialize : Class → String
  | Class.first => "first"
  | Class.second => "second"

/-- Derived `Deserialize` for `Class` with lowercase token names: only the
two canonical tokens are accepted. -/
def Class.deserialize (s : String) : Option Class :=
  if s = "first" then some Class.first
  else if s = "second" then some Class.second
  else none

/-- `src/types/customer_details.rs`: `struct Name(String)`. -/
structure Name where
  val : String
deriving DecidableEq, Repr

/-- `ParseNameError(String)` from `src/types/customer_details.rs`. -/
structure ParseNameError where
  val : String
deriving DecidableEq, Repr

/-- Acceptance of the name pattern `^[a-z]$` (anchored whole-string match in
the `regex` crate): the string is exactly one character in `a..z`. -/
def nameRegexAccepts (s : String) : Bool :=
  match s.data with
  | [c] => decide ('a' ≤ c) && decide (c ≤ 'z')
  | _ => false

/-- `TryFrom<String> for Name`: `validate_regex` against `^[a-z]$`. -/
def Name.tryFrom (s : String) : Except ParseNameError Name :=
  if nameRegexAccepts s then Except.ok ⟨s⟩ else Except.error ⟨s⟩

/-- `Email` from `src/types/customer_details.rs`; its validator is not
needed by the claims, so only the payload is modelled. -/
structure Email where
  email : String
deriving DecidableEq, Repr

/-- `PhoneNumber` from `src/types/customer_details.rs`; its validator is
not needed by the claims, so only the payload is modelled. -/
structure PhoneNumber where
  val : String
deriving DecidableEq, Repr

/-- `src/types/payment_info.rs`: `struct PaymentInfo(String)`. -/
structure PaymentInfo where
  val : String
deriving DecidableEq, Repr

/-- `impl Display for PaymentInfo`: always writes the fixed placeholder. -/
def PaymentInfo.display (_p : PaymentInfo) : String := "<SECRET>"

/-- `impl Debug for PaymentInfo`: `debug_tuple("PaymentInfo")` holding the
fixed placeholder string (which `Debug` renders quoted). -/
def PaymentInfo.debugFmt (_p : PaymentInfo) : String :=
  "PaymentInfo(\"<SECRET>\")"

/-- `From<PaymentInfo> for String` (used by `#[serde(into = "String")]`):
`p.to_string()`, i.e. the `Display` rendering. -/
def PaymentInfo.intoString (p : PaymentInfo) : String := p.display

/-- `TryFrom<String> for PaymentInfo`: infallible, accepts any string. -/
def PaymentInfo.tryFrom (s : String) : Except Empty PaymentInfo :=
  Except.ok ⟨s⟩

/-- Derived `Deserialize` for the newtype `PaymentInfo(String)`: any wire
string is accepted as-is. -/
def PaymentInfo.deserialize (s : String) : PaymentInfo := ⟨s⟩

/-- `src/types/ticket_machine.rs`: the per-session booking draft.  The Rust
field `class` is a Lean keyword and is rendered `«class»`. -/
structure TicketMachine where
  origin : Option Location := none
  destination : Option Location := none
  time : Option DepartureOrArrival := none
  trip : Option TripId := none
  «class» : Option Class := none
  name : Option Name := none
  email : Option Email := none
  phone_number : Option PhoneNumber := none
  payment_info : Option PaymentInfo := none
deriving DecidableEq, Repr

/-- `TicketMachine::default()`: all nine slots empty. -/
def TicketMachine.default : TicketMachine := {}

/-- `TicketMachine::book` (`src/types/ticket_machine.rs`): prints a
confirmation line (I/O glue, dropped here) and returns `Ok(())`. -/
def TicketMachine.book (_t : TicketMachine) : Except Error Unit :=
  Except.ok ()

/-- The nine ordered slots of the draft, in required fill order
(`origin` = 0 … `payment` = 8). -/
def slotIsSet (k : Nat) (s : TicketMachine) : Bool :=
  match k with
  | 0 => s.origin.isSome
  | 1 => s.destination.isSome
  | 2 => s.time.isSome
  | 3 => s.trip.isSome
  | 4 => s.«class».isSome
  | 5 => s.name.isSome
  | 6 => s.email.isSome
  | 7 => s.phone_number.isSome
  | _ => s.payment_info.isSome

/-! ### Session adapter (`src/session.rs`)

The session store holds at most one `TicketMachine` per session under the
key `"STATE"`; it is modelled as an `Option TicketMachine`.  Each operation
returns the pair (value stored after the operation, value returned to the
caller). -/

/-- `SessionExt::update_state`: if a state exists, apply `f` to a copy,
persist it and return it; otherwise do nothing and return `None`. -/
def updateState (f : TicketMachine → TicketMachine) (st : Option TicketMachine) :
    Option TicketMachine × Option TicketMachine :=
  match st with
  | none => (none, none)
  | some s => (some (f s), some (f s))

/-- `SessionExt::get_or_init_state`: ensure a state exists (initialising it
with `TicketMachine::default`), then apply `f`, persist and return. -/
def getOrInitState (f : TicketMachine → TicketMachine) (st : Option TicketMachine) :
    Option TicketMachine × TicketMachine :=
  match st with
  | none => (some (f TicketMachine.default), f TicketMachine.default)
  | some s => (some (f s), f s)

/-- `SessionExt::try_get_state`: read without writing. -/
def tryGetState (st : Option TicketMachine) : Option TicketMachine := st

/-! ### Trip catalog generator (`src/types/trip.rs`) -/

/-- `struct Trip` from `src/types/trip.rs`. -/
structure Trip where
  id : TripId
  origin : Location
  destination : Location
  departure : Int
  arrival : Int
deriving DecidableEq, Repr

/-- The departure anchor derived from the time constraint in
`Trip::list_matching`: a departure time is used directly, an arrival time
is shifted by `Duration::hours(-2)`. -/
def anchorOf : DepartureOrArrival → Int
  | DepartureOrArrival.departure t => t.val
  | DepartureOrArrival.arrival t => t.val + 3600 * (-2)

/-- The i-th candidate generated by `Trip::list_matching`'s iterator
pipeline: the base trip departs at the anchor and arrives
`Duration::hours(2)` later, and the `map` step shifts both instants by
`Duration::hours(i)`. -/
def Trip.candidate (idGen : Nat → TripId) (origin destination : Location)
    (anchor : Int) (i : Nat) : Trip :=
  { id := idGen i
    origin := origin
    destination := destination
    departure := anchor + 3600 * (i : Int)
    arrival := (anchor + 3600 * 2) + 3600 * (i : Int) }

/-- Index of the first candidate whose departure is strictly after `now`.
Candidate departures increase strictly with the index, so the filter in
`Trip::list_matching` passes exactly the indices `≥ firstMatch now anchor`
(lemma `candidate_passes_filter_iff`). -/
def firstMatch (now anchor : Int) : Nat :=
  if now < anchor then 0 else (now - anchor).toNat / 3600 + 1

/-- The iterator pipeline of `Trip::list_matching` truncated to the first
`fuel` generated candidates: enumerate, filter on `Utc::now() < departure`,
`take(10)`. -/
def Trip.listMatchingAux (now : Int) (idGen : Nat → TripId)
    (origin destination : Location) (anchor : Int) (fuel : Nat) : List Trip :=
  (((List.range fuel).map (Trip.candidate idGen origin destination anchor)).filter
      (fun t => decide (now < t.departure))).take 10

/-- `Trip::list_matching`.  The source works on an unbounded lazy iterator;
`firstMatch now anchor + 10` candidates suffice to reach the fixed point of
`filter`/`take(10)` (theorem `Trip.listMatchingAux_stable`), so the result
equals the lazy iterator's. -/
def Trip.listMatching (now : Int) (idGen : Nat → TripId)
    (origin destination : Location) (time : DepartureOrArrival) : List Trip :=
  Trip.listMatchingAux now idGen origin destination (anchorOf time)
    (firstMatch now (anchorOf time) + 10)

/-! ### HTTP-facing operations (`src/lib.rs`)

Each handler maps the stored session value to (new stored value, response).
The `Error.badRequest` messages are those of the source. -/

/-- `set_origin`: `get_or_init_state`, hence never fails. -/
def set_origin (v : Location) (st : Option TicketMachine) :
    Option TicketMachine × Except Error TicketMachine :=
  let r := getOrInitState (fun s => { s with origin := some v }) st
  (r.1, Except.ok r.2)

/-- `set_destination`. -/
def set_destination (v : Location) (st : Option TicketMachine) :
    Option TicketMachine × Except Error TicketMachine :=
  match updateState (fun s => { s with destination := some v }) st with
  | (st', some s) => (st', Except.ok s)
  | (st', none) => (st', Except.error (Error.badRequest "Set origin first"))

/-- `set_departure`. -/
def set_departure (t : FutureTimestamp) (st : Option TicketMachine) :
    Option TicketMachine × Except Error TicketMachine :=
  match updateState (fun s => { s with time := some (DepartureOrArrival.departure t) }) st with
  | (st', some s) => (st', Except.ok s)
  | (st', none) => (st', Except.error (Error.badRequest "Set destination first"))

/-- `set_arrival`. -/
def set_arrival (t : FutureTimestamp) (st : Option TicketMachine) :
    Option TicketMachine × Except Error TicketMachine :=
  match updateState (fun s => { s with time := some (DepartureOrArrival.arrival t) }) st with
  | (st', some s) => (st', Except.ok s)
  | (st', none) => (st', Except.error (Error.badRequest "Set destination first"))

/-- `list_trips`: reads the state, requires origin, destination and time,
and delegates to `Trip::list_matching`; it never writes the session. -/
def list_trips (now : Int) (idGen : Nat → TripId) (st : Option TicketMachine) :
    Option TicketMachine × Except Error (List Trip) :=
  match tryGetState st with
  | none => (st, Except.error (Error.badRequest "Set trip details first"))
  | some s =>
    match s.origin, s.destination, s.time with
    | some o, some d, some t => (st, Except.ok (Trip.listMatching now idGen o d t))
    | _, _, _ => (st, Except.error (Error.badRequest "Trip details incomplete"))

/-- `set_trip`. -/
def set_trip (id : TripId) (st : Option TicketMachine) :
    Option TicketMachine × Except Error TicketMachine :=
  match updateState (fun s => { s with trip := some id }) st with
  | (st', some s) => (st', Except.ok s)
  | (st', none) => (st', Except.error (Error.badRequest "Set departure or arrival time first"))

/-- `set_class`. -/
def set_class (c : Class) (st : Option TicketMachine) :
    Option TicketMachine × Except Error TicketMachine :=
  match updateState (fun s => { s with «class» := some c }) st with
  | (st', some s) => (st', Except.ok s)
  | (st', none) => (st', Except.error (Error.badRequest "Select a trip first"))

/-- `set_name`. -/
def set_name (n : Name) (st : Option TicketMachine) :
    Option TicketMachine × Except Error TicketMachine :=
  match updateState (fun s => { s with name := some n }) st with
  | (st', some s) => (st', Except.ok s)
  | (st', none) => (st', Except.error (Error.badRequest "Set class first"))

/-- `set_email`. -/
def set_email (e : Email) (st : Option TicketMachine) :
    Option TicketMachine × Except Error TicketMachine :=
  match updateState (fun s => { s with email := some e }) st with
  | (st', some s) => (st', Except.ok s)
  | (st', none) => (st', Except.error (Error.badRequest "Set name first"))

/-- `set_phone_number`. -/
def set_phone_number (p : PhoneNumber) (st : Option TicketMachine) :
    Option TicketMachine × Except Error TicketMachine :=
  match updateState (fun s => { s with phone_number := some p }) st with
  | (st', some s) => (st', Except.ok s)
  | (st', none) => (st', Except.error (Error.badRequest "Set email first"))

/-- `book_trip`: store the payment token via `update_state` (which
persists), then run the booking-confirmation side effect `book` on the
persisted draft; `t.book()?` propagates the side effect's error.  The side
effect is the external collaborator; the source instantiates it with
`TicketMachine::book`. -/
def book_trip (book : TicketMachine → Except Error Unit) (p : PaymentInfo)
    (st : Option TicketMachine) : Option TicketMachine × Except Error TicketMachine :=
  match updateState (fun s => { s with payment_info := some p }) st with
  | (st', some t) =>
    match book t with
    | Except.ok _ => (st', Except.ok t)
    | Except.error e => (st', Except.error e)
  | (st', none) => (st', Except.error (Error.badRequest "Set phone_number first"))

/-! ### The state-mutating operations as a single step function -/

/-- The draft-mutating operations exposed by the router (`run`), one
constructor per `post` route. -/
inductive Op where
  | opSetOrigin (v : Location)
  | opSetDestination (v : Location)
  | opSetDeparture (t : FutureTimestamp)
  | opSetArrival (t : FutureTimestamp)
  | opSetTrip (id : TripId)
  | opSetClass (c : Class)
  | opSetName (n : Name)
  | opSetEmail (e : Email)
  | opSetPhoneNumber (p : PhoneNumber)
  | opBookTrip (p : PaymentInfo)
deriving DecidableEq

/-- Whether the operation is the origin-setting one (the only handler that
uses `get_or_init_state`). -/
def Op.isSetOrigin : Op → Bool
  | Op.opSetOrigin _ => true
  | _ => false

/-- Dispatch an operation to its handler. -/
def step (book : TicketMachine → Except Error Unit) (op : Op)
    (st : Option TicketMachine) : Option TicketMachine × Except Error TicketMachine :=
  match op with
  | Op.opSetOrigin v => set_origin v st
  | Op.opSetDestination v => set_destination v st
  | Op.opSetDeparture t => set_departure t st
  | Op.opSetArrival t => set_arrival t st
  | Op.opSetTrip id => set_trip id st
  | Op.opSetClass c => set_class c st
  | Op.opSetName n => set_name n st
  | Op.opSetEmail e => set_email e st
  | Op.opSetPhoneNumber p => set_phone_number p st
  | Op.opBookTrip p => book_trip book p st

/-- Session values reachable from a fresh session (no draft) by the core's
operations. -/
inductive Reachable (book : TicketMachine → Except Error Unit) :
    Option TicketMachine → Prop where
  | init : Reachable book none
  | mutate (op : Op) (st : Option TicketMachine) :
      Reachable book st → Reachable book (step book op st).1
  | query (now : Int) (idGen : Nat → TripId) (st : Option TicketMachine) :
      Reachable book st → Reachable book (list_trips now idGen st).1

/-! ### Textual renderings (`Debug`/`Display`) -/

/-- Substring test on character lists: `n` occurs contiguously in the
first argument. -/
def containsSub : List Char → List Char → Bool
  | [], n => n.isPrefixOf []
  | c :: t, n => n.isPrefixOf (c :: t) || containsSub t n

/-- Substring test on strings: `needle` occurs contiguously inside `hay`. -/
def strContains (hay needle : String) : Bool :=
  containsSub hay.data needle.data

/-- `Debug` rendering of an `Option`, as in Rust: `None` / `Some(…)`. -/
def optionDebug (f : α → String) : Option α → String
  | none => "None"
  | some a => "Some(" ++ f a ++ ")"

/-- Rust `Debug` rendering of a string value (quoted; escape sequences for
exotic characters are not reproduced). -/
def quoted (s : String) : String := "\"" ++ s ++ "\""

/-- Derived `Debug` for `Location(String)`. -/
def Location.debugFmt (l : Location) : String := "Location(" ++ quoted l.val ++ ")"

/-- Derived `Debug` for `FutureTimestamp` (the instant shown as its
numeric model). -/
def FutureTimestamp.debugFmt (t : FutureTimestamp) : String :=
  "FutureTimestamp(" ++ toString t.val ++ ")"

/-- Derived `Debug` for `DepartureOrArrival`. -/
def DepartureOrArrival.debugFmt : DepartureOrArrival → String
  | DepartureOrArrival.departure t => "Departure(" ++ t.debugFmt ++ ")"
  | DepartureOrArrival.arrival t => "Arrival(" ++ t.debugFmt ++ ")"

/-- Derived `Debug` for `TripId`. -/
def TripId.debugFmt (id : TripId) : String := "TripId(" ++ toString id.val ++ ")"

/-- Derived `Debug` for `Class`. -/
def Class.debugFmt : Class → String
  | Class.first => "First"
  | Class.second => "Second"

/-- Derived `Debug` for `Name(String)`. -/
def Name.debugFmt (n : Name) : String := "Name(" ++ quoted n.val ++ ")"

/-- Derived `Debug` for `Email`. -/
def Email.debugFmt (e : Email) : String :=
  "Email \x7b email: " ++ quoted e.email ++ " \x7d"

/-- Derived `Debug` for `PhoneNumber(String)`. -/
def PhoneNumber.debugFmt (p : PhoneNumber) : String :=
  "PhoneNumber(" ++ quoted p.val ++ ")"

/-- Derived `Debug` for `TicketMachine`, field order as declared; the
payment slot goes through the redacting `Debug` of `PaymentInfo`. -/
def TicketMachine.debugFmt (s : TicketMachine) : String :=
  "TicketMachine \x7b origin: " ++ optionDebug Location.debugFmt s.origin ++
    ", destination: " ++ optionDebug Location.debugFmt s.destination ++
    ", time: " ++ optionDebug DepartureOrArrival.debugFmt s.time ++
    ", trip: " ++ optionDebug TripId.debugFmt s.trip ++
    ", class: " ++ optionDebug Class.debugFmt s.«class» ++
    ", name: " ++ optionDebug Name.debugFmt s.name ++
    ", email: " ++ optionDebug Email.debugFmt s.email ++
    ", phone_number: " ++ optionDebug PhoneNumber.debugFmt s.phone_number ++
    ", payment_info: " ++ optionDebug PaymentInfo.debugFmt s.payment_info ++ " \x7d"

/-! ### Supporting lemmas about the trip generator -/

/-- The filter of `Trip::list_matching` passes the i-th candidate exactly
when `firstMatch now anchor ≤ i`: candidate departures increase strictly
with the index. -/
theorem candidate_passes_filter_iff (now anchor : Int) (idGen : Nat → TripId)
    (o d : Location) (i : Nat) :
    (now < (Trip.candidate idGen o d anchor i).departure) ↔ firstMatch now anchor ≤ i := by
  simp only [Trip.candidate, firstMatch]
  split
  · constructor
    · intro _; exact Nat.zero_le i
    · intro _; omega
  · rename_i h
    have h3600 : (0:Nat) < 3600 := by norm_num
    have hdiv := Nat.div_lt_iff_lt_mul (x := (now - anchor).toNat) (y := i) h3600
    constructor
    · intro hlt
      have : (now - anchor).toNat < i * 3600 := by omega
      omega
    · intro hle
      have : (now - anchor).toNat / 3600 < i := by omega
      have := hdiv.mp this
      omega

/-- Closed form of the truncated iterator pipeline: with at least
`firstMatch now anchor + 10` candidates generated, the result is the ten
consecutive candidates starting at `firstMatch now anchor`. -/
theorem Trip.listMatchingAux_eq (now : Int) (idGen : Nat → TripId)
    (o d : Location) (anchor : Int) (e : Nat) (he : 10 ≤ e) :
    Trip.listMatchingAux now idGen o d anchor (firstMatch now anchor + e) =
      (List.range 10).map
        (fun k => Trip.candidate idGen o d anchor (firstMatch now anchor + k)) := by
  unfold Trip.listMatchingAux
  rw [List.range_add, List.map_append, List.filter_append]
  have h1 : ((List.range (firstMatch now anchor)).map
      (Trip.candidate idGen o d anchor)).filter
        (fun t => decide (now < t.departure)) = [] := by
    rw [List.filter_eq_nil_iff]
    intro t ht
    obtain ⟨i, hi, rfl⟩ := List.mem_map.mp ht
    have hilt : i < firstMatch now anchor := List.mem_range.mp hi
    simp only [decide_eq_true_eq]
    intro hcontra
    exact absurd (candidate_passes_filter_iff now anchor idGen o d i |>.mp hcontra)
      (by omega)
  have h2 : (((List.range e).map (fun x => firstMatch now anchor + x)).map
      (Trip.candidate idGen o d anchor)).filter
        (fun t => decide (now < t.departure)) =
      ((List.range e).map (fun x => firstMatch now anchor + x)).map
        (Trip.candidate idGen o d anchor) := by
    rw [List.filter_eq_self]
    intro t ht
    obtain ⟨i, hi, rfl⟩ := List.mem_map.mp ht
    obtain ⟨k, _, rfl⟩ := List.mem_map.mp hi
    simp only [decide_eq_true_eq]
    exact (candidate_passes_filter_iff now anchor idGen o d _).mpr (by omega)
  rw [h1, h2, List.nil_append, List.map_map, ← List.map_take, List.take_range,
    Nat.min_eq_left he]
  rfl

/-- Fuel stability: every truncation of the lazy iterator that generates at
least `firstMatch now anchor + 10` candidates yields `Trip.listMatching`.
This is the fixed point the unbounded Rust iterator reaches, so the bounded
model is faithful to the source. -/
theorem Trip.listMatchingAux_stable (now : Int) (idGen : Nat → TripId)
    (o d : Location) (anchor : Int) (m : Nat)
    (hm : firstMatch now anchor + 10 ≤ m) :
    Trip.listMatchingAux now idGen o d anchor m =
      Trip.listMatchingAux now idGen o d anchor (firstMatch now anchor + 10) := by
  have hrepr : m = firstMatch now anchor + (m - firstMatch now anchor) := by omega
  rw [hrepr,
    Trip.listMatchingAux_eq now idGen o d anchor (m - firstMatch now anchor) (by omega),
    Trip.listMatchingAux_eq now idGen o d anchor 10 (by omega)]

/-- The closed form of `Trip.listMatching` itself. -/
theorem Trip.listMatching_eq (now : Int) (idGen : Nat → TripId)
    (o d : Location) (time : DepartureOrArrival) :
    Trip.listMatching now idGen o d time =
      (List.range 10).map
        (fun k => Trip.candidate idGen o d (anchorOf time)
          (firstMatch now (anchorOf time) + k)) :=
  Trip.listMatchingAux_eq now idGen o d (anchorOf time) 10 (by omega)

/-! ### Claim theorems -/

/-- Claim C2 (counterexample): the claim says a timestamp equal to "now"
is rejected.  At `t = now = 0` the construction `Utc::now() > dt` check is
`0 > 0`, which is false, so construction succeeds. -/
theorem futureTimestamp_accepts_now :
    (0 : Int) ≤ 0 ∧ FutureTimestamp.tryFrom 0 0 = Except.ok ⟨0⟩ :=
  ⟨le_refl 0, rfl⟩

/-- Claim C2 (amended): `FutureTimestamp` construction at evaluation time
`now` fails exactly when the timestamp is strictly less than `now`, and
succeeds exactly when it is greater than or equal to `now` (a timestamp
equal to `now` is accepted). -/
theorem futureTimestamp_boundary (now t : Int) :
    (FutureTimestamp.tryFrom now t = Except.error TimeError.timeInPast ↔ t < now) ∧
    (FutureTimestamp.tryFrom now t = Except.ok ⟨t⟩ ↔ now ≤ t) := by
  unfold FutureTimestamp.tryFrom
  split <;> rename_i h <;> simp <;> omega

/-- Claim C5: deserializing any string into a `PaymentInfo` succeeds (both
through the derived `Deserialize` and the infallible `TryFrom<String>`),
and serializing any `PaymentInfo` to its wire string yields the fixed
redaction placeholder, not the stored token. -/
theorem paymentInfo_wire_contract (s : String) (p : PaymentInfo) :
    PaymentInfo.tryFrom s = Except.ok ⟨s⟩ ∧
    PaymentInfo.deserialize s = ⟨s⟩ ∧
    PaymentInfo.intoString p = "<SECRET>" :=
  ⟨rfl, rfl, rfl⟩

/-- Claim C7: `Location` construction succeeds exactly on the four-station
allow-list (matched exactly), fails on everything else, and a valid
`Location` round-trips through serialize/deserialize to an equal value. -/
theorem location_allowlist_roundtrip (s : String) :
    (Location.is_valid_location s = true ↔
      s = "Amsterdam Centraal" ∨ s = "Paris Nord" ∨ s = "Berlin Hbf" ∨
        s = "London Waterloo") ∧
    (Location.is_valid_location s = false → Location.tryFrom s = Except.error ⟨s⟩) ∧
    (Location.is_valid_location s = true →
      Location.tryFrom s = Except.ok ⟨s⟩ ∧
      Location.deserialize (Location.serialize ⟨s⟩) = Except.ok ⟨s⟩) := by
  refine ⟨?_, ?_, ?_⟩
  · simp [Location.is_valid_location, List.contains]
  · intro h
    unfold Location.tryFrom
    rw [h]
    rfl
  · intro h
    have hok : Location.tryFrom s = Except.ok ⟨s⟩ := by
      unfold Location.tryFrom
      rw [h]
      rfl
    exact ⟨hok, hok⟩

/-- Claim C7 (witness): a string outside the allow-list is rejected; an
allow-list member is accepted and round-trips. -/
theorem location_allowlist_roundtrip_witness :
    Location.tryFrom "Amsterdam" = Except.error ⟨"Amsterdam"⟩ ∧
    Location.tryFrom "Amsterdam Centraal" = Except.ok ⟨"Amsterdam Centraal"⟩ ∧
    Location.deserialize (Location.serialize ⟨"Amsterdam Centraal"⟩) =
      Except.ok ⟨"Amsterdam Centraal"⟩ :=
  ⟨(location_allowlist_roundtrip "Amsterdam").2.1 (by rfl),
    ((location_allowlist_roundtrip "Amsterdam Centraal").2.2 (by rfl)).1,
    ((location_allowlist_roundtrip "Amsterdam Centraal").2.2 (by rfl)).2⟩

/-- Claim C8: deserializing any token other than `"first"`/`"second"` into
`Class` fails, the canonical tokens yield `First`/`Second`, and each
variant round-trips through serialize/deserialize. -/
theorem class_wire_roundtrip :
    (∀ s : String, s ≠ "first" → s ≠ "second" → Class.deserialize s = none) ∧
    Class.deserialize "first" = some Class.first ∧
    Class.deserialize "second" = some Class.second ∧
    (∀ c : Class, Class.deserialize (Class.serialize c) = some c) := by
  refine ⟨?_, rfl, rfl, ?_⟩
  · intro s h1 h2
    unfold Class.deserialize
    rw [if_neg h1, if_neg h2]
  · intro c
    cases c <;> rfl

/-- Claim C8 (witness): the non-canonical token `"third"` is rejected. -/
theorem class_wire_roundtrip_witness : Class.deserialize "third" = none :=
  class_wire_roundtrip.1 "third" (by decide) (by decide)

/-- Acceptance of `^[a-z]$` characterised: exactly the one-character
strings whose character lies in `a..z`. -/
theorem nameRegexAccepts_iff (s : String) :
    nameRegexAccepts s = true ↔ ∃ c, s.data = [c] ∧ 'a' ≤ c ∧ c ≤ 'z' := by
  unfold nameRegexAccepts
  rcases hd : s.data with _ | ⟨c, _ | ⟨c2, rest⟩⟩ <;> simp [hd]

/-- Claim C6: `Name` construction succeeds exactly on strings matching
`^[a-z]$` (a single character in `a..z`); in particular `"Henk"` is
rejected with a parse error. -/
theorem name_pattern_characterisation :
    (∀ s : String, (∃ n, Name.tryFrom s = Except.ok n) ↔
      ∃ c, s.data = [c] ∧ 'a' ≤ c ∧ c ≤ 'z') ∧
    Name.tryFrom "Henk" = Except.error ⟨"Henk"⟩ := by
  constructor
  · intro s
    rw [← nameRegexAccepts_iff]
    unfold Name.tryFrom
    rcases h : nameRegexAccepts s with _ | _ <;> simp [h]
  · rfl

/-- Claim C3: `list_matching` anchors on the departure time (an arrival
constraint is shifted back 2 hours), returns at most 10 trips, every
returned trip is a generated candidate departing `i` hours after the
anchor with a fixed 2-hour journey to the requested stations, every
returned departure is strictly after the evaluation time `now`, and
consecutive returned trips are 1 hour apart in generation order. -/
theorem listMatching_spec (now : Int) (idGen : Nat → TripId) (o d : Location)
    (time : DepartureOrArrival) :
    (∀ t : FutureTimestamp, anchorOf (DepartureOrArrival.departure t) = t.val) ∧
    (∀ t : FutureTimestamp, anchorOf (DepartureOrArrival.arrival t) = t.val - 7200) ∧
    (Trip.listMatching now idGen o d time).length ≤ 10 ∧
    (∀ tr ∈ Trip.listMatching now idGen o d time,
      now < tr.departure ∧ tr.arrival = tr.departure + 7200 ∧
      tr.origin = o ∧ tr.destination = d ∧
      ∃ i : Nat, tr = Trip.candidate idGen o d (anchorOf time) i ∧
        tr.departure = anchorOf time + 3600 * (i : Int)) ∧
    (∀ (j : Nat) (h1 : j + 1 < (Trip.listMatching now idGen o d time).length),
      ((Trip.listMatching now idGen o d time).get ⟨j + 1, h1⟩).departure =
        ((Trip.listMatching now idGen o d time).get
          ⟨j, Nat.lt_of_succ_lt h1⟩).departure + 3600) := by
  have hL := Trip.listMatching_eq now idGen o d time
  refine ⟨fun t => rfl, fun t => by simp [anchorOf]; ring, ?_, ?_, ?_⟩
  · rw [hL]
    simp
  · intro tr htr
    rw [hL] at htr
    obtain ⟨k, _, rfl⟩ := List.mem_map.mp htr
    refine ⟨?_, ?_, rfl, rfl, firstMatch now (anchorOf time) + k, rfl, rfl⟩
    · exact (candidate_passes_filter_iff now (anchorOf time) idGen o d _).mpr (by omega)
    · simp [Trip.candidate]
      ring
  · intro j h1
    have hj1 : j + 1 < 10 := by
      have := h1
      rw [hL] at this
      simpa using this
    simp [hL, List.get_eq_getElem, List.getElem_map, List.getElem_range, Trip.candidate]
    ring

/-- The concrete first trip of the witness query for `listMatching_spec`. -/
def tripW : Trip :=
  { id := ⟨0⟩, origin := ⟨"Amsterdam Centraal"⟩,
    destination := ⟨"London Waterloo"⟩, departure := 3600, arrival := 10800 }

/-- The witness query for `listMatching_spec`: evaluation time 0 and a
departure constraint at instant 3600. -/
def listW : List Trip :=
  Trip.listMatching 0 (fun n => ⟨n⟩) ⟨"Amsterdam Centraal"⟩
    ⟨"London Waterloo"⟩ (DepartureOrArrival.departure ⟨3600⟩)

/-- Claim C3 (witness): with `now = 0` and a departure constraint at
instant 3600, the first candidate is returned, departs after `now`, has
the 2-hour journey, and the first two returned trips are 1 hour apart. -/
theorem listMatching_spec_witness :
    tripW ∈ listW ∧ (0 : Int) < tripW.departure ∧
    tripW.arrival = tripW.departure + 7200 ∧
    (listW.get ⟨1, by decide⟩).departure =
      (listW.get ⟨0, by decide⟩).departure + 3600 := by
  have T := listMatching_spec 0 (fun n => ⟨n⟩) ⟨"Amsterdam Centraal"⟩
    ⟨"London Waterloo"⟩ (DepartureOrArrival.departure ⟨3600⟩)
  have hmem : tripW ∈ listW := by decide
  have hprops := T.2.2.2.1 tripW hmem
  exact ⟨hmem, hprops.1, hprops.2.1, T.2.2.2.2 0 (by decide)⟩

/-- `list_trips` never writes the session: the stored value is returned
unchanged in every branch. -/
theorem list_trips_fst (now : Int) (idGen : Nat → TripId)
    (st : Option TicketMachine) : (list_trips now idGen st).1 = st := by
  rcases st with _ | s
  · rfl
  · rcases s with ⟨o, dd, t, tr, c, n, e, ph, pay⟩
    rcases o with _ | o <;> rcases dd with _ | dd <;> rcases t with _ | t <;> rfl

/-- Claim C9: `list_trips` fails with an ordering error (a `BadRequest`)
unless origin, destination and time are all present in the session's
draft; when they are present it returns exactly
`Trip::list_matching(origin, destination, time)`; and in every case it
leaves the persisted draft unchanged. -/
theorem list_trips_spec (now : Int) (idGen : Nat → TripId)
    (st : Option TicketMachine) :
    (list_trips now idGen st).1 = st ∧
    (st = none → (list_trips now idGen st).2 =
      Except.error (Error.badRequest "Set trip details first")) ∧
    (∀ s, st = some s →
      (∀ o dd t, s.origin = some o → s.destination = some dd → s.time = some t →
        (list_trips now idGen st).2 =
          Except.ok (Trip.listMatching now idGen o dd t)) ∧
      ((s.origin = none ∨ s.destination = none ∨ s.time = none) →
        (list_trips now idGen st).2 =
          Except.error (Error.badRequest "Trip details incomplete"))) := by
  refine ⟨list_trips_fst now idGen st, ?_, ?_⟩
  · rintro rfl
    rfl
  · rintro s rfl
    constructor
    · intro o dd t ho hd ht
      simp [list_trips, tryGetState, ho, hd, ht]
    · intro hmiss
      rcases s with ⟨o, dd, t, tr, c, n, e, ph, pay⟩
      rcases o with _ | o <;> rcases dd with _ | dd <;> rcases t with _ | t <;>
        first
          | rfl
          | (exfalso; simp at hmiss)

/-- Claim C9 (witness): with only origin and destination set the call
fails with an ordering error and leaves the draft unchanged; with all
three fields set it returns the generator's list and leaves the draft
unchanged. -/
theorem list_trips_spec_witness :
    (list_trips 0 (fun n => ⟨n⟩)
        (some { origin := some ⟨"Amsterdam Centraal"⟩,
                destination := some ⟨"Paris Nord"⟩ })).2 =
      Except.error (Error.badRequest "Trip details incomplete") ∧
    (list_trips 0 (fun n => ⟨n⟩)
        (some { origin := some ⟨"Amsterdam Centraal"⟩,
                destination := some ⟨"Paris Nord"⟩ })).1 =
      some { origin := some ⟨"Amsterdam Centraal"⟩,
             destination := some ⟨"Paris Nord"⟩ } ∧
    (list_trips 0 (fun n => ⟨n⟩) none).2 =
      Except.error (Error.badRequest "Set trip details first") ∧
    (list_trips 0 (fun n => ⟨n⟩)
        (some { origin := some ⟨"Amsterdam Centraal"⟩,
                destination := some ⟨"Paris Nord"⟩,
                time := some (DepartureOrArrival.departure ⟨3600⟩) })).2 =
      Except.ok (Trip.listMatching 0 (fun n => ⟨n⟩) ⟨"Amsterdam Centraal"⟩
        ⟨"Paris Nord"⟩ (DepartureOrArrival.departure ⟨3600⟩)) := by
  refine ⟨?_, ?_, ?_, ?_⟩
  · exact ((list_trips_spec 0 (fun n => ⟨n⟩) _).2.2 _ rfl).2 (Or.inr (Or.inr rfl))
  · exact (list_trips_spec 0 (fun n => ⟨n⟩)
      (some { origin := some ⟨"Amsterdam Centraal"⟩,
              destination := some ⟨"Paris Nord"⟩ })).1
  · exact (list_trips_spec 0 (fun n => ⟨n⟩) none).2.1 rfl
  · exact ((list_trips_spec 0 (fun n => ⟨n⟩) _).2.2 _ rfl).1 _ _ _ rfl rfl rfl

/-- Whatever the confirmation side effect returns, `book_trip` on an
existing draft persists the draft with the payment slot filled. -/
theorem book_trip_fst (book : TicketMachine → Except Error Unit)
    (p : PaymentInfo) (s : TicketMachine) :
    (book_trip book p (some s)).1 = some { s with payment_info := some p } := by
  rcases hb : book { s with payment_info := some p } with e | u <;>
    simp [book_trip, updateState, hb]

/-- Claim C10: `book_trip` on an existing draft first persists the draft
with the payment slot filled (whatever the confirmation side effect does),
then runs the confirmation; on confirmation success the finalized draft is
returned, on confirmation failure that error is returned while the
finalized draft stays persisted, and retrying the call is idempotent on
the persisted state. -/
theorem book_trip_spec (book : TicketMachine → Except Error Unit)
    (p : PaymentInfo) (s : TicketMachine) :
    (book_trip book p (some s)).1 = some { s with payment_info := some p } ∧
    (book { s with payment_info := some p } = Except.ok () →
      (book_trip book p (some s)).2 =
        Except.ok { s with payment_info := some p }) ∧
    (∀ e, book { s with payment_info := some p } = Except.error e →
      (book_trip book p (some s)).2 = Except.error e) ∧
    book_trip book p ((book_trip book p (some s)).1) =
      book_trip book p (some s) := by
  rcases hb : book { s with payment_info := some p } with e | u
  · refine ⟨by simp [book_trip, updateState, hb], ?_, ?_,
      by simp [book_trip, updateState, hb]⟩
    · intro hok
      exact Except.noConfusion hok
    · intro e1 he
      injection he with h
      subst h
      simp [book_trip, updateState, hb]
  · refine ⟨by simp [book_trip, updateState, hb],
      fun _ => by simp [book_trip, updateState, hb], ?_,
      by simp [book_trip, updateState, hb]⟩
    intro e1 he
    exact Except.noConfusion he

/-- Claim C10 (witness): with the repository's always-succeeding
confirmation the finalized draft is persisted and returned; with a failing
confirmation the error is returned while the same finalized draft is
persisted. -/
theorem book_trip_spec_witness :
    (book_trip TicketMachine.book ⟨"tok"⟩ (some TicketMachine.default)).1 =
      some { TicketMachine.default with payment_info := some ⟨"tok"⟩ } ∧
    (book_trip TicketMachine.book ⟨"tok"⟩ (some TicketMachine.default)).2 =
      Except.ok { TicketMachine.default with payment_info := some ⟨"tok"⟩ } ∧
    (book_trip (fun _ => Except.error Error.ioError) ⟨"tok"⟩
        (some TicketMachine.default)).1 =
      some { TicketMachine.default with payment_info := some ⟨"tok"⟩ } ∧
    (book_trip (fun _ => Except.error Error.ioError) ⟨"tok"⟩
        (some TicketMachine.default)).2 = Except.error Error.ioError :=
  ⟨(book_trip_spec TicketMachine.book ⟨"tok"⟩ TicketMachine.default).1,
    (book_trip_spec TicketMachine.book ⟨"tok"⟩ TicketMachine.default).2.1 rfl,
    (book_trip_spec (fun _ => Except.error Error.ioError) ⟨"tok"⟩
      TicketMachine.default).1,
    (book_trip_spec (fun _ => Except.error Error.ioError) ⟨"tok"⟩
      TicketMachine.default).2.2.1 Error.ioError rfl⟩

/-- A draft with only the origin slot populated (the state after
`set_origin` on a fresh session). -/
def draftOriginOnly : TicketMachine :=
  { origin := some ⟨"Amsterdam Centraal"⟩ }

/-- The draft after `set_class` on `draftOriginOnly`: class populated
while destination, time and trip are still empty. -/
def draftOriginClass : TicketMachine :=
  { origin := some ⟨"Amsterdam Centraal"⟩, «class» := some Class.first }

/-- Claim C1 (counterexample): on the reachable draft with only the origin
set, setting the class slot (position 4) while the destination slot
(position 1) and trip slot (position 3) are empty does not fail: it
succeeds and mutates the draft, and the resulting reachable draft has a
populated slot (class) with empty earlier slots. -/
theorem setClass_skips_order_check :
    Reachable TicketMachine.book (some draftOriginOnly) ∧
    slotIsSet 1 draftOriginOnly = false ∧
    slotIsSet 3 draftOriginOnly = false ∧
    set_class Class.first (some draftOriginOnly) =
      (some draftOriginClass, Except.ok draftOriginClass) ∧
    draftOriginClass ≠ draftOriginOnly ∧
    Reachable TicketMachine.book (some draftOriginClass) ∧
    slotIsSet 4 draftOriginClass = true ∧
    slotIsSet 1 draftOriginClass = false := by
  have h0 : Reachable TicketMachine.book (some draftOriginOnly) :=
    Reachable.mutate (Op.opSetOrigin ⟨"Amsterdam Centraal"⟩) none Reachable.init
  have h1 : Reachable TicketMachine.book (some draftOriginClass) :=
    Reachable.mutate (Op.opSetClass Class.first) (some draftOriginOnly) h0
  exact ⟨h0, rfl, rfl, rfl, by decide, h1, rfl, rfl⟩

/-- In every reachable session with an existing draft, the origin slot is
populated: the draft is created only by `set_origin`, which fills it, and
no operation empties a slot. -/
theorem reachable_draft_has_origin (book : TicketMachine → Except Error Unit)
    (st : Option TicketMachine) (hr : Reachable book st) :
    ∀ s, st = some s → s.origin.isSome = true := by
  induction hr with
  | init =>
    intro s hs
    exact Option.noConfusion hs
  | mutate op st' _ ih =>
    intro s hs
    cases op with
    | opSetOrigin v =>
      rcases st' with _ | s0 <;>
        · injection hs with h
          subst h
          rfl
    | opBookTrip p =>
      rcases st' with _ | s0
      · exact Option.noConfusion hs
      · have hfst : (step book (Op.opBookTrip p) (some s0)).1 =
            some { s0 with payment_info := some p } :=
          book_trip_fst book p s0
        rw [hfst] at hs
        injection hs with h
        subst h
        exact ih s0 rfl
    | opSetDestination v =>
      rcases st' with _ | s0
      · exact Option.noConfusion hs
      · injection hs with h
        subst h
        exact ih s0 rfl
    | opSetDeparture t =>
      rcases st' with _ | s0
      · exact Option.noConfusion hs
      · injection hs with h
        subst h
        exact ih s0 rfl
    | opSetArrival t =>
      rcases st' with _ | s0
      · exact Option.noConfusion hs
      · injection hs with h
        subst h
        exact ih s0 rfl
    | opSetTrip id =>
      rcases st' with _ | s0
      · exact Option.noConfusion hs
      · injection hs with h
        subst h
        exact ih s0 rfl
    | opSetClass c =>
      rcases st' with _ | s0
      · exact Option.noConfusion hs
      · injection hs with h
        subst h
        exact ih s0 rfl
    | opSetName n =>
      rcases st' with _ | s0
      · exact Option.noConfusion hs
      · injection hs with h
        subst h
        exact ih s0 rfl
    | opSetEmail e =>
      rcases st' with _ | s0
      · exact Option.noConfusion hs
      · injection hs with h
        subst h
        exact ih s0 rfl
    | opSetPhoneNumber ph =>
      rcases st' with _ | s0
      · exact Option.noConfusion hs
      · injection hs with h
        subst h
        exact ih s0 rfl
  | query now idGen st' _ ih =>
    intro s hs
    rw [list_trips_fst now idGen st'] at hs
    exact ih s hs

/-- Claim C1 (amended): the only precondition the setters enforce is the
existence of the session's draft.  On a fresh session (no draft — the
state before `set_origin` was ever called) every operation other than
`set_origin` fails with an ordering error and leaves the session without a
draft; once a draft exists, every operation succeeds and returns the
persisted snapshot regardless of which earlier slots are empty.
Consequently the only slot-implication that holds in every reachable
draft is that the origin slot is populated. -/
theorem draft_existence_gates_setters (st : Option TicketMachine)
    (hr : Reachable TicketMachine.book st) :
    (st = none → ∀ op : Op, Op.isSetOrigin op = false →
      (step TicketMachine.book op none).1 = none ∧
      ∃ m, (step TicketMachine.book op none).2 =
        Except.error (Error.badRequest m)) ∧
    (∀ s, st = some s → ∀ op : Op,
      ∃ s', step TicketMachine.book op (some s) = (some s', Except.ok s')) ∧
    (∀ s, st = some s → s.origin.isSome = true) := by
  refine ⟨?_, ?_, reachable_draft_has_origin TicketMachine.book st hr⟩
  · intro _ op hop
    cases op with
    | opSetOrigin v => exact Bool.noConfusion hop
    | opSetDestination v => exact ⟨rfl, _, rfl⟩
    | opSetDeparture t => exact ⟨rfl, _, rfl⟩
    | opSetArrival t => exact ⟨rfl, _, rfl⟩
    | opSetTrip id => exact ⟨rfl, _, rfl⟩
    | opSetClass c => exact ⟨rfl, _, rfl⟩
    | opSetName n => exact ⟨rfl, _, rfl⟩
    | opSetEmail e => exact ⟨rfl, _, rfl⟩
    | opSetPhoneNumber ph => exact ⟨rfl, _, rfl⟩
    | opBookTrip p => exact ⟨rfl, _, rfl⟩
  · intro s _ op
    cases op <;> exact ⟨_, rfl⟩

/-- Claim C1 (witness for the amended claim): on a fresh session,
`set_destination` fails and leaves the session draftless; on the reachable
draft holding only an origin, `set_class` succeeds even though trip (and
destination) are empty, and the reachable draft has its origin slot
populated. -/
theorem draft_existence_gates_setters_witness :
    ((step TicketMachine.book (Op.opSetDestination ⟨"Paris Nord"⟩) none).1 =
      none ∧
      ∃ m, (step TicketMachine.book (Op.opSetDestination ⟨"Paris Nord"⟩)
        none).2 = Except.error (Error.badRequest m)) ∧
    (∃ s', step TicketMachine.book (Op.opSetClass Class.first)
      (some draftOriginOnly) = (some s', Except.ok s')) ∧
    draftOriginOnly.origin.isSome = true := by
  have h0 : Reachable TicketMachine.book (some draftOriginOnly) :=
    Reachable.mutate (Op.opSetOrigin ⟨"Amsterdam Centraal"⟩) none
      Reachable.init
  have T0 := draft_existence_gates_setters none Reachable.init
  have T1 := draft_existence_gates_setters (some draftOriginOnly) h0
  exact ⟨T0.1 rfl (Op.opSetDestination ⟨"Paris Nord"⟩) rfl,
    T1.2.1 draftOriginOnly rfl (Op.opSetClass Class.first),
    T1.2.2 draftOriginOnly rfl⟩

/-- Claim C4 (counterexample): the claim's "the rendered output never
contains the stored token" fails for the concrete token `"SECRET"`: the
rendering (the fixed placeholder `<SECRET>`) contains that token as a
substring, even though the rendering is the placeholder as required. -/
theorem payment_render_contains_secret_token :
    PaymentInfo.display ⟨"SECRET"⟩ = "<SECRET>" ∧
    strContains (PaymentInfo.display ⟨"SECRET"⟩) "SECRET" = true :=
  ⟨rfl, by decide⟩

/-- Claim C4 (amended): every textual rendering of a `PaymentInfo`
(`Display`, `Debug`, and the `Debug` of a draft containing one) shows the
payment field as the fixed placeholder `<SECRET>`, the rendered output is
identical for any two tokens, and the `PaymentInfo` renderings contain a
given token only when that token occurs inside the fixed placeholder
rendering itself (so nothing about the stored token leaks). -/
theorem payment_render_redacted (tok1 tok2 : String) (s : TicketMachine) :
    PaymentInfo.display ⟨tok1⟩ = PaymentInfo.display ⟨tok2⟩ ∧
    PaymentInfo.debugFmt ⟨tok1⟩ = PaymentInfo.debugFmt ⟨tok2⟩ ∧
    TicketMachine.debugFmt { s with payment_info := some ⟨tok1⟩ } =
      TicketMachine.debugFmt { s with payment_info := some ⟨tok2⟩ } ∧
    PaymentInfo.display ⟨tok1⟩ = "<SECRET>" ∧
    PaymentInfo.debugFmt ⟨tok1⟩ = "PaymentInfo(\"<SECRET>\")" ∧
    (strContains (PaymentInfo.display ⟨tok1⟩) tok1 = true →
      strContains "<SECRET>" tok1 = true) ∧
    (strContains (PaymentInfo.debugFmt ⟨tok1⟩) tok1 = true →
      strContains "PaymentInfo(\"<SECRET>\")" tok1 = true) :=
  ⟨rfl, rfl, rfl, rfl, rfl, fun h => h, fun h => h⟩

/-- Claim C4 (witness): the draft rendering is identical for the token
`"SECRET"` and a non-ASCII token, and the containment bound is realised at
the token `"SECRET"`. -/
theorem payment_render_redacted_witness :
    TicketMachine.debugFmt
        { TicketMachine.default with payment_info := some ⟨"SECRET"⟩ } =
      TicketMachine.debugFmt
        { TicketMachine.default with payment_info := some ⟨"💰💰💰"⟩ } ∧
    PaymentInfo.display ⟨"💰💰💰"⟩ = "<SECRET>" ∧
    strContains "<SECRET>" "SECRET" = true :=
  ⟨(payment_render_redacted "SECRET" "💰💰💰" TicketMachine.default).2.2.1,
    (payment_render_redacted "💰💰💰" "SECRET" TicketMachine.default).2.2.2.1,
    (payment_render_redacted "SECRET" "💰💰💰"
      TicketMachine.default).2.2.2.2.2.1 (by decide)⟩

end Takeoff
